import Mathlib

/-!
Shallow embedding of the AuberController program-execution engine.

Sources embedded here:
* `auber_controller_program.py` — the `program` class (step list, step entry
  calculations for Ramp/Soak, step advancing).
* `auber_controller_api.py` — the `auber_syl53x2p_api` class in simulation
  mode (the hardware branch performs the same guarded write over Modbus; the
  stored simulated setpoint stands for the device setpoint register).
* `auber_controller.py` — the `auber_syl53x2p` GUI class's run engine:
  `_button_run_toggled` (run start), `_timer_tick`, `program_increment`,
  `step_increment`, `_update_progress`.

Modelling conventions:
* Python floats are modelled as `ℚ` (exact arithmetic).
* Python exceptions (`IndexError` from an out-of-range list access,
  `ZeroDivisionError` from division by zero) are modelled by `Except PyErr`;
  where the Python code mutates `self` before an exception can be raised, the
  embedded function returns the mutated object alongside the `Except` result.
* `round(x, 1)` is modelled by `pyRound1` (round half to even, Python 3
  semantics, on exact rationals).
* The un-bounded `while` loops of `program_increment` are embedded as
  fuel-indexed structural recursions; the fuel `upFuel`/`downFuel` is an upper
  bound on the number of iterations the loop can perform before its internal
  `break` fires (each iteration moves `T_current` by 0.1 toward `T_stop`), so
  the fuelled function computes the exact fixpoint of the source loop.
* GUI widgets are kept only where they carry engine state that the engine
  reads back or that a claim is about: the progress textbox becomes
  `disp_progress`, and `number_setpoint.set_value` (whose changed-signal calls
  `api.set_temperature_setpoint`) becomes a guarded write to the api state.
-/

namespace Auber

/-- Step operation, `"Ramp"`/`"Soak"` strings in the Python source. -/
inductive Op
  | Ramp
  | Soak
deriving DecidableEq, Repr

/-- One program step: the Python list `[operation, temperature, duration]`
(temperature in °C, duration in hours). -/
structure Step where
  op : Op
  temperature : ℚ
  duration : ℚ
deriving DecidableEq, Repr

/-- The Python exceptions the embedded code can raise. -/
inductive PyErr
  | indexError
  | zeroDivisionError
deriving DecidableEq, Repr

deriving instance DecidableEq for Except

/-- Python 3 `round` to the nearest integer, halves to even (banker's
rounding), on exact rationals. -/
def rhe (q : ℚ) : ℤ :=
  if Int.fract q = 1/2 then (if Even ⌊q⌋ then ⌊q⌋ else ⌊q⌋ + 1) else round q

/-- Python `round(x, 1)`: round to one decimal place, halves to even. -/
def pyRound1 (x : ℚ) : ℚ := (rhe (10 * x) : ℚ) / 10

theorem abs_rhe_sub (q : ℚ) : |(rhe q : ℚ) - q| ≤ 1/2 := by
  unfold rhe
  split
  · rename_i h
    have hq : q = (⌊q⌋ : ℚ) + 1/2 := by
      have := Int.fract_add_floor q
      rw [h] at this
      linarith
    split <;> rw [abs_le] <;> constructor <;> push_cast <;> linarith
  · rw [abs_sub_comm]
    exact abs_sub_round q

theorem pyRound1_ge (x : ℚ) : x - 1/20 ≤ pyRound1 x := by
  have h := abs_rhe_sub (10 * x)
  rw [abs_le] at h
  unfold pyRound1
  nlinarith [h.1]

theorem pyRound1_le (x : ℚ) : pyRound1 x ≤ x + 1/20 := by
  have h := abs_rhe_sub (10 * x)
  rw [abs_le] at h
  unfold pyRound1
  nlinarith [h.2]

/-- The `program` class of `auber_controller_program.py`.  Fields mirror the
attributes set in `__init__`/`add_step`: the full step list, the currently
loaded step, its index, the number of steps and the total program length in
seconds.  (The transient attributes `dT`, `sgn`, `step_time`, `t_next` set by
`run`/`increment_step` are returned to the caller and are re-stored by the GUI
engine, so they are modelled as return values only.) -/
structure program where
  name : String
  steps : List Step
  loaded_step : Step
  loaded_step_index : ℕ
  size : ℕ
  length : ℚ
deriving DecidableEq, Repr

namespace program

/-- `program.__init__` for a named (non-"Custom") program: load the step
list, load step 0 (an empty list raises `IndexError` at `self.steps[0]`),
record the size and sum up the length `Σ duration*3600`. -/
def init (name : String) (steps : List Step) : Except PyErr program :=
  match steps with
  | [] => Except.error PyErr.indexError
  | s :: _ =>
      Except.ok
        { name := name
          steps := steps
          loaded_step := s
          loaded_step_index := 0
          size := steps.length
          length := (steps.map (fun t => t.duration * 3600)).sum }

/-- `program.__init__` with name "Custom": only `self.steps = []` is set.  The
other attributes do not exist yet in Python (reading them would raise
`AttributeError`); they are modelled as inert defaults, and `add_step` below
sets all of them before the engine ever reads them. -/
def mkCustom : program :=
  { name := "Custom"
    steps := []
    loaded_step := { op := Op.Soak, temperature := 0, duration := 0 }
    loaded_step_index := 0
    size := 0
    length := 0 }

/-- `program.get_step_operation`. -/
def get_step_operation (p : program) : Op := p.loaded_step.op

/-- `program.get_step_temperature`. -/
def get_step_temperature (p : program) : ℚ := p.loaded_step.temperature

/-- `program.get_step_duration`. -/
def get_step_duration (p : program) : ℚ := p.loaded_step.duration

/-- `program.get_size`. -/
def get_size (p : program) : ℕ := p.size

/-- `program.get_length`. -/
def get_length (p : program) : ℚ := p.length

/-- `program.get_step_index`. -/
def get_step_index (p : program) : ℕ := p.loaded_step_index

/-- `program.add_step`: append the step; if it is the first step, load it;
update `size`; recompute `length` from scratch. -/
def add_step (p : program) (new_step : Step) : program :=
  let steps2 := p.steps ++ [new_step]
  let p2 :=
    if steps2.length = 1 then
      { p with steps := steps2, loaded_step := new_step, loaded_step_index := 0 }
    else
      { p with steps := steps2 }
  { p2 with
      size := steps2.length
      length := (steps2.map (fun t => t.duration * 3600)).sum }

/-- `program.check_next`: `loaded_step_index < size - 1` (Python integers, so
the subtraction is over ℤ). -/
def check_next (p : program) : Bool :=
  decide ((p.loaded_step_index : ℤ) < (p.size : ℤ) - 1)

/-- `program.increment_step`: load step `loaded_step_index + 1` (raising
`IndexError` if absent, with `self` unchanged), bump the index, then compute
the ramp parameters.  For a Ramp step, `abs(dT) * 10.0 = 0` (i.e. the new
step's target equals `current_setpoint`) raises `ZeroDivisionError` — but
only after `self.loaded_step`/`self.loaded_step_index` were already mutated,
which the returned `program` reflects.  Returns
`(step_time, t_next, current_setpoint, target_temperature)` like the source's
`return self.step_time, self.t_next, current_setpoint, self.get_step_temperature()`. -/
def increment_step (p : program) (current_setpoint : ℚ) :
    program × Except PyErr (ℚ × ℚ × ℚ × ℚ) :=
  match p.steps[p.loaded_step_index + 1]? with
  | none => (p, Except.error PyErr.indexError)
  | some s =>
      let p2 := { p with loaded_step := s, loaded_step_index := p.loaded_step_index + 1 }
      match s.op with
      | Op.Ramp =>
          let dT := s.temperature - current_setpoint
          if |dT| * 10 = 0 then (p2, Except.error PyErr.zeroDivisionError)
          else
            let step_time := s.duration * 3600 / (|dT| * 10)
            (p2, Except.ok (step_time, step_time, current_setpoint, s.temperature))
      | Op.Soak => (p2, Except.ok (0, s.duration * 3600, current_setpoint, s.temperature))

/-- `program.run`: compute the ramp parameters of the currently loaded step
from `current_temperature`.  For a Ramp step whose target equals
`current_temperature`, `abs(dT) * 10.0 = 0` raises `ZeroDivisionError`.
Returns `(step_time, t_next, current_temperature, target_temperature)`. -/
def run (p : program) (current_temperature : ℚ) : Except PyErr (ℚ × ℚ × ℚ × ℚ) :=
  if p.get_step_operation = Op.Ramp then
    let dT := p.get_step_temperature - current_temperature
    if |dT| * 10 = 0 then Except.error PyErr.zeroDivisionError
    else
      let step_time := p.get_step_duration * 3600 / (|dT| * 10)
      Except.ok (step_time, step_time, current_temperature, p.get_step_temperature)
  else
    Except.ok (0, p.get_step_duration * 3600, current_temperature, p.get_step_temperature)

/-- Iterated `increment_step` (ignoring the returned ramp tuple, as the
mutation of `loaded_step`/`loaded_step_index` happens before any exception
other than `IndexError`). -/
def advanceN : ℕ → program → ℚ → program
  | 0, p, _ => p
  | Nat.succ n, p, c => advanceN n (p.increment_step c).1 c

end program

/-- The `auber_syl53x2p_api` class of `auber_controller_api.py` in simulation
mode: `_temperature_limit` from the constructor and the `simulation_setpoint`
attribute (initial value 24.5), which stands for the device's setpoint
register.  (In hardware mode `set_temperature_setpoint` performs the same
guarded write to Modbus register 0x00 and `get_temperature_setpoint` reads it
back, so the same state model applies.) -/
structure auber_syl53x2p_api where
  temperature_limit : ℚ
  simulation_setpoint : ℚ
deriving DecidableEq, Repr

namespace auber_syl53x2p_api

/-- `get_temperature_setpoint` (simulation branch). -/
def get_temperature_setpoint (a : auber_syl53x2p_api) : ℚ := a.simulation_setpoint

/-- `set_temperature_setpoint(T, temperature_limit)`: if the limit argument is
`None` use `self._temperature_limit`; if `T` exceeds the limit do nothing and
return the current setpoint; otherwise store `T` and return
`get_temperature_setpoint()` (which is then `T`). -/
def set_temperature_setpoint (a : auber_syl53x2p_api) (T : ℚ)
    (temperature_limit : Option ℚ) : auber_syl53x2p_api × ℚ :=
  let limit := temperature_limit.getD a.temperature_limit
  if limit < T then (a, a.get_temperature_setpoint)
  else
    let a2 := { a with simulation_setpoint := T }
    (a2, a2.get_temperature_setpoint)

end auber_syl53x2p_api

/-- C1: for every Ramp step entered with origin temperature `c`, target
temperature `≠ c` and duration `d` hours, both step-entry routines
(`program.run` at run start and `program.increment_step` at a step
transition) compute `step_time = d*3600 / (|target - c| * 10)` seconds and
set the first nudge threshold `t_next = step_time`. -/
theorem C1_ramp_step_entry (p : program) (c : ℚ) (s : Step) :
    (p.loaded_step.op = Op.Ramp → p.loaded_step.temperature ≠ c →
      p.run c = Except.ok
        (p.loaded_step.duration * 3600 / (|p.loaded_step.temperature - c| * 10),
         p.loaded_step.duration * 3600 / (|p.loaded_step.temperature - c| * 10),
         c, p.loaded_step.temperature)) ∧
    (p.steps[p.loaded_step_index + 1]? = some s → s.op = Op.Ramp →
      s.temperature ≠ c →
      (p.increment_step c).2 = Except.ok
        (s.duration * 3600 / (|s.temperature - c| * 10),
         s.duration * 3600 / (|s.temperature - c| * 10),
         c, s.temperature)) := by
  constructor
  · intro hop hne
    have hz : ¬(|p.loaded_step.temperature - c| * 10 = 0) := by
      simp [sub_eq_zero, hne]
    simp [program.run, program.get_step_operation, program.get_step_temperature,
      program.get_step_duration, hop, hz]
  · intro hget hop hne
    have hz : ¬(|s.temperature - c| * 10 = 0) := by
      simp [sub_eq_zero, hne]
    simp [program.increment_step, hget, hop, hz]

/-- The one-step program `[("Ramp", 100, 1.0)]` of the spec's Scenario A,
as built by `program.init`. -/
def progRampA : program :=
  { name := "A"
    steps := [{ op := Op.Ramp, temperature := 100, duration := 1 }]
    loaded_step := { op := Op.Ramp, temperature := 100, duration := 1 }
    loaded_step_index := 0
    size := 1
    length := 3600 }

/-- Witness for C1 (Scenario A): a Ramp to 100 °C entered at 20 °C over one
hour yields `step_time = t_next = 3600/800 = 4.5` seconds. -/
theorem C1_ramp_step_entry_witness :
    progRampA.run 20 = Except.ok (9/2, 9/2, 20, 100) := by
  have h := (C1_ramp_step_entry progRampA 20
    { op := Op.Soak, temperature := 0, duration := 0 }).1 (by rfl) (by norm_num [progRampA])
  rw [h]
  norm_num [progRampA]

/-- C4 counterexample: constructing a program that contains a Ramp step of
zero duration succeeds — there is no load-time validation and no
`InvalidProgramError` anywhere in the code — and entering a Ramp step whose
target equals the origin temperature (`ΔT = 0`) raises `ZeroDivisionError`
at run time, contradicting the claim on both counts. -/
theorem C4_counterexample :
    program.init "Z" [{ op := Op.Ramp, temperature := 100, duration := 0 }]
      = Except.ok
          { name := "Z"
            steps := [{ op := Op.Ramp, temperature := 100, duration := 0 }]
            loaded_step := { op := Op.Ramp, temperature := 100, duration := 0 }
            loaded_step_index := 0
            size := 1
            length := 0 } ∧
    program.run
        { name := "W"
          steps := [{ op := Op.Ramp, temperature := 20, duration := 1 }]
          loaded_step := { op := Op.Ramp, temperature := 20, duration := 1 }
          loaded_step_index := 0
          size := 1
          length := 3600 } 20 = Except.error PyErr.zeroDivisionError := by
  constructor
  · norm_num [program.init]
  · norm_num [program.run, program.get_step_operation, program.get_step_temperature,
      program.get_step_duration]

/-- C4 (amended): no load-time validation exists — loading any non-empty
step list succeeds and no `InvalidProgramError` is defined.  A Ramp step
whose target equals the origin raises `ZeroDivisionError` at the moment the
step is entered, and a zero-duration Ramp step (with a distinct target) is
entered without error, yielding `step_time = t_next = 0`. -/
theorem C4_no_validation (name : String) (s0 : Step) (rest : List Step)
    (p : program) (T : ℚ) :
    (∃ q, program.init name (s0 :: rest) = Except.ok q) ∧
    (p.loaded_step.op = Op.Ramp → p.loaded_step.temperature = T →
      p.run T = Except.error PyErr.zeroDivisionError) ∧
    (p.loaded_step.op = Op.Ramp → p.loaded_step.duration = 0 →
      p.loaded_step.temperature ≠ T →
      p.run T = Except.ok (0, 0, T, p.loaded_step.temperature)) := by
  refine ⟨⟨_, rfl⟩, ?_, ?_⟩
  · intro hop ht
    simp [program.run, program.get_step_operation, program.get_step_temperature,
      program.get_step_duration, hop, ht]
  · intro hop hd hne
    have hz : ¬(|p.loaded_step.temperature - T| * 10 = 0) := by
      simp [sub_eq_zero, hne]
    simp [program.run, program.get_step_operation, program.get_step_temperature,
      program.get_step_duration, hop, hd, hz]

/-- The one-step zero-duration ramp program used as the C4 witness input. -/
def progRampZeroDur : program :=
  { name := "D"
    steps := [{ op := Op.Ramp, temperature := 50, duration := 0 }]
    loaded_step := { op := Op.Ramp, temperature := 50, duration := 0 }
    loaded_step_index := 0
    size := 1
    length := 0 }

/-- Witness for the amended C4: the zero-duration Ramp step
`("Ramp", 50, 0)` is entered at 20 °C without error and gets
`step_time = t_next = 0`. -/
theorem C4_no_validation_witness :
    progRampZeroDur.run 20 = Except.ok (0, 0, 20, 50) := by
  have h := (C4_no_validation "D" { op := Op.Ramp, temperature := 50, duration := 0 } []
    progRampZeroDur 20).2.2 (by rfl) (by rfl) (by norm_num [progRampZeroDur])
  exact h

/-- Whenever the next step exists, `increment_step` mutates the program the
same way in every branch (the ramp-parameter computation happens after the
mutation): the next step is loaded and the index is bumped by one. -/
theorem increment_step_fst (p : program) (c : ℚ) (s : Step)
    (hs : p.steps[p.loaded_step_index + 1]? = some s) :
    (p.increment_step c).1 =
      { p with loaded_step := s, loaded_step_index := p.loaded_step_index + 1 } := by
  unfold program.increment_step
  rw [hs]
  rcases s with ⟨op, temp, dur⟩
  cases op
  · dsimp only
    by_cases hz : |temp - c| * 10 = 0
    · rw [if_pos hz]
    · rw [if_neg hz]
  · rfl

/-- `advanceN` advances the index by exactly one per call while in range. -/
theorem advanceN_index (k : ℕ) :
    ∀ (p : program) (c : ℚ), p.loaded_step_index + k < p.steps.length →
      (program.advanceN k p c).loaded_step_index = p.loaded_step_index + k := by
  induction k with
  | zero => intro p c _; simp [program.advanceN]
  | succ n ih =>
      intro p c h
      have hlt : p.loaded_step_index + 1 < p.steps.length := by omega
      have hs : p.steps[p.loaded_step_index + 1]? =
          some (p.steps[p.loaded_step_index + 1]) :=
        List.getElem?_eq_getElem hlt
      unfold program.advanceN
      rw [increment_step_fst p c _ hs]
      have h2 := ih
        { p with loaded_step := p.steps[p.loaded_step_index + 1],
                 loaded_step_index := p.loaded_step_index + 1 } c
        (show p.loaded_step_index + 1 + n < p.steps.length by omega)
      rw [h2]
      show p.loaded_step_index + 1 + n = p.loaded_step_index + (n + 1)
      omega

/-- C6 counterexample: on a one-step program, `check_next` is false and a
further `increment_step` fails with a plain `IndexError` from the
out-of-range list access `self.steps[self.loaded_step_index+1]` — no
`ProgramCompleteError` exists anywhere in the code. -/
theorem C6_counterexample :
    program.increment_step
        { name := "S"
          steps := [{ op := Op.Soak, temperature := 50, duration := 1 }]
          loaded_step := { op := Op.Soak, temperature := 50, duration := 1 }
          loaded_step_index := 0
          size := 1
          length := 3600 } 20
      = ({ name := "S"
           steps := [{ op := Op.Soak, temperature := 50, duration := 1 }]
           loaded_step := { op := Op.Soak, temperature := 50, duration := 1 }
           loaded_step_index := 0
           size := 1
           length := 3600 }, Except.error PyErr.indexError) := by
  rfl

/-- C6 (amended): `check_next` returns true iff the current index is strictly
below `size - 1`; `increment_step` with a next step present bumps the index
by exactly one and loads that step; `n-1` advances from index 0 (after
`init`) reach index `n-1`; one further call fails with `IndexError` (no
`ProgramCompleteError` exists in the code), leaving the program unchanged. -/
theorem C6_advance (name : String) (steps : List Step) (p q : program)
    (c : ℚ) (s : Step) :
    (q.check_next = true ↔ (q.loaded_step_index : ℤ) < (q.size : ℤ) - 1) ∧
    (q.steps[q.loaded_step_index + 1]? = some s →
      (q.increment_step c).1.loaded_step_index = q.loaded_step_index + 1 ∧
      (q.increment_step c).1.loaded_step = s) ∧
    (program.init name steps = Except.ok p →
      (program.advanceN (steps.length - 1) p c).loaded_step_index
        = steps.length - 1) ∧
    (q.size = q.steps.length → q.check_next = false →
      q.increment_step c = (q, Except.error PyErr.indexError)) := by
  refine ⟨?_, ?_, ?_, ?_⟩
  · simp [program.check_next]
  · intro hs
    rw [increment_step_fst q c s hs]
    exact ⟨rfl, rfl⟩
  · intro hinit
    cases steps with
    | nil => simp [program.init] at hinit
    | cons s0 tl =>
        have hp : p.loaded_step_index = 0 ∧ p.steps = s0 :: tl := by
          simp only [program.init] at hinit
          cases hinit
          exact ⟨rfl, rfl⟩
        have h := advanceN_index ((s0 :: tl).length - 1) p c
          (by rw [hp.1, hp.2]; simp)
        rw [h, hp.1]
        omega
  · intro hsz hnext
    have hge : q.steps.length ≤ q.loaded_step_index + 1 := by
      simp [program.check_next] at hnext
      omega
    have hnone : q.steps[q.loaded_step_index + 1]? = none :=
      List.getElem?_eq_none hge
    unfold program.increment_step
    rw [hnone]

/-- Three-step program used as the C6 witness input. -/
def progThreeSoak : program :=
  { name := "T"
    steps := [{ op := Op.Soak, temperature := 30, duration := 1 },
              { op := Op.Soak, temperature := 40, duration := 1 },
              { op := Op.Soak, temperature := 50, duration := 1 }]
    loaded_step := { op := Op.Soak, temperature := 30, duration := 1 }
    loaded_step_index := 0
    size := 3
    length := 10800 }

/-- Witness for C6: on a three-step program, two advances from index 0 reach
index 2 = `len(steps) - 1`. -/
theorem C6_advance_witness :
    (program.advanceN 2 progThreeSoak 20).loaded_step_index = 2 := by
  have h := (C6_advance "T" progThreeSoak.steps progThreeSoak progThreeSoak 20
    { op := Op.Soak, temperature := 0, duration := 0 }).2.2.1
    (by norm_num [program.init, progThreeSoak])
  simpa [progThreeSoak] using h

/-- C8: the total program length equals `Σ step.duration * 3600`: it is
computed once by `__init__`, recomputed from scratch by every `add_step`
append (Custom mode), and left unchanged by `increment_step` (stepping a
running program does not recompute it). -/
theorem C8_total_duration (name : String) (steps : List Step) (p q : program)
    (s : Step) (c : ℚ) :
    (program.init name steps = Except.ok p →
      p.get_length = (steps.map (fun t => t.duration * 3600)).sum) ∧
    ((q.add_step s).get_length
      = ((q.steps ++ [s]).map (fun t => t.duration * 3600)).sum) ∧
    ((q.increment_step c).1.get_length = q.get_length) := by
  refine ⟨?_, ?_, ?_⟩
  · intro hinit
    cases steps with
    | nil => simp [program.init] at hinit
    | cons s0 tl =>
        simp only [program.init] at hinit
        cases hinit
        rfl
  · rfl
  · cases hs : q.steps[q.loaded_step_index + 1]? with
    | none =>
        unfold program.increment_step program.get_length
        rw [hs]
    | some t =>
        rw [program.get_length, program.get_length, increment_step_fst q c t hs]

/-- The Ramp(1 h) then Soak(2.5 h) program, as built by `program.init`. -/
def progRampSoakL : program :=
  { name := "L"
    steps := [{ op := Op.Ramp, temperature := 100, duration := 1 },
              { op := Op.Soak, temperature := 100, duration := 5/2 }]
    loaded_step := { op := Op.Ramp, temperature := 100, duration := 1 }
    loaded_step_index := 0
    size := 2
    length := 12600 }

/-- Witness for C8: `init` on a Ramp(1 h) + Soak(2.5 h) program stores
`length = 3600 + 9000 = 12600` seconds. -/
theorem C8_total_duration_witness : progRampSoakL.get_length = 12600 := by
  have h := (C8_total_duration "L" progRampSoakL.steps progRampSoakL progRampSoakL
    { op := Op.Soak, temperature := 0, duration := 0 } 0).1
    (by norm_num [program.init, progRampSoakL])
  rw [h]
  norm_num [progRampSoakL]

/-- C9: `set_temperature_setpoint` with a value strictly above the effective
temperature limit performs no write (the stored setpoint is unchanged) and
returns the current setpoint; with a value within the limit it stores the
value and returns it. -/
theorem C9_setpoint_limit (a : auber_syl53x2p_api) (T : ℚ) (lim : Option ℚ) :
    (lim.getD a.temperature_limit < T →
      a.set_temperature_setpoint T lim = (a, a.simulation_setpoint)) ∧
    (T ≤ lim.getD a.temperature_limit →
      a.set_temperature_setpoint T lim
        = ({ a with simulation_setpoint := T }, T)) := by
  constructor
  · intro h
    simp [auber_syl53x2p_api.set_temperature_setpoint,
      auber_syl53x2p_api.get_temperature_setpoint, h]
  · intro h
    simp [auber_syl53x2p_api.set_temperature_setpoint,
      auber_syl53x2p_api.get_temperature_setpoint, not_lt.mpr h]

/-- Witness for C9: with the default limit 500 and setpoint 24.5, writing
600 is rejected (state unchanged, current setpoint returned) and writing 80
is accepted and echoed. -/
theorem C9_setpoint_limit_witness :
    auber_syl53x2p_api.set_temperature_setpoint
        { temperature_limit := 500, simulation_setpoint := 49/2 } 600 none
      = ({ temperature_limit := 500, simulation_setpoint := 49/2 }, 49/2) ∧
    auber_syl53x2p_api.set_temperature_setpoint
        { temperature_limit := 500, simulation_setpoint := 49/2 } 80 none
      = ({ temperature_limit := 500, simulation_setpoint := 80 }, 80) := by
  constructor
  · exact (C9_setpoint_limit
      { temperature_limit := 500, simulation_setpoint := 49/2 } 600 none).1
      (by norm_num)
  · exact (C9_setpoint_limit
      { temperature_limit := 500, simulation_setpoint := 49/2 } 80 none).2
      (by norm_num)

/-- C10: in simulation mode, for any `T` not exceeding the configured limit,
`set_temperature_setpoint T` followed by `get_temperature_setpoint` returns
exactly `T`, and the `set` call itself also returns `T`. -/
theorem C10_setpoint_roundtrip (a : auber_syl53x2p_api) (T : ℚ)
    (h : T ≤ a.temperature_limit) :
    (a.set_temperature_setpoint T none).1.get_temperature_setpoint = T ∧
    (a.set_temperature_setpoint T none).2 = T := by
  constructor <;>
    simp [auber_syl53x2p_api.set_temperature_setpoint,
      auber_syl53x2p_api.get_temperature_setpoint, not_lt.mpr h]

/-- Witness for C10: setting 450 at limit 500 round-trips through
`get_temperature_setpoint` and is echoed by the setter. -/
theorem C10_setpoint_roundtrip_witness :
    (auber_syl53x2p_api.set_temperature_setpoint
        { temperature_limit := 500, simulation_setpoint := 49/2 } 450
        none).1.get_temperature_setpoint = 450 ∧
    (auber_syl53x2p_api.set_temperature_setpoint
        { temperature_limit := 500, simulation_setpoint := 49/2 } 450 none).2 = 450 :=
  C10_setpoint_roundtrip
    { temperature_limit := 500, simulation_setpoint := 49/2 } 450 (by norm_num)

/-! ## The run engine of `auber_controller.py` (`auber_syl53x2p`)

The engine attributes that the tick path reads or writes, plus the api
object it talks to.  `disp_progress` is the numeric percentage last written
to the progress textbox by `_update_progress` (`100*value/length`, before
string formatting); `crashed` records an uncaught Python exception raised
inside the tick (the partially mutated state at that point is kept, exactly
as the exception would leave the objects). -/
structure EngineState where
  loaded_program : program
  api : auber_syl53x2p_api
  temperature_limit : ℚ
  step_time : ℚ
  t_next : ℚ
  T_start : ℚ
  T_stop : ℚ
  T_current : ℚ
  t_step : ℚ
  t_program : ℚ
  step_duration : ℚ
  step_operation : Op
  running : Bool
  completed : Bool
  disp_progress : Option ℚ
  crashed : Option PyErr
deriving DecidableEq, Repr

/-- `_update_progress(_val)`: writes `100*t_program/length` (or
`100*_val/length` when `_val` is given) to the progress textbox. -/
def updateProgress (st : EngineState) (v : Option ℚ) : EngineState :=
  { st with disp_progress := some (100 * v.getD st.t_program / st.loaded_program.get_length) }

/-- `self.number_setpoint.set_value(T)` during a run: the NumberBox's
changed-signal handler `_number_setpoint_changed` forwards the value to
`api.set_temperature_setpoint(value, self._temperature_limit)`. -/
def commandSetpoint (st : EngineState) (T : ℚ) : EngineState :=
  { st with api := (st.api.set_temperature_setpoint T (some st.temperature_limit)).1 }

/-- One iteration of the up-ramp `while` body of `program_increment`:
`t_program += step_time; t_next += step_time; T_current += 0.1;
number_setpoint.set_value(T_current)`. -/
def nudgeUp (st : EngineState) : EngineState :=
  let st1 := { st with t_program := st.t_program + st.step_time
                       t_next := st.t_next + st.step_time
                       T_current := st.T_current + 1/10 }
  commandSetpoint st1 st1.T_current

/-- One iteration of the down-ramp `while` body (`T_current -= 0.1`). -/
def nudgeDown (st : EngineState) : EngineState :=
  let st1 := { st with t_program := st.t_program + st.step_time
                       t_next := st.t_next + st.step_time
                       T_current := st.T_current - 1/10 }
  commandSetpoint st1 st1.T_current

/-- The up-ramp `while self.t_step >= self.t_next:` loop, fuel-indexed.
The body runs while the condition holds, and `break`s once
`round(T_current, 1) >= T_stop` after a nudge. -/
def rampUpGo : ℕ → EngineState → EngineState
  | 0, st => st
  | Nat.succ n, st =>
      if st.t_next ≤ st.t_step then
        let st1 := nudgeUp st
        if st1.T_stop ≤ pyRound1 st1.T_current then st1
        else rampUpGo n st1
      else st

/-- The down-ramp loop (`break` once `round(T_current, 1) <= T_stop`). -/
def rampDownGo : ℕ → EngineState → EngineState
  | 0, st => st
  | Nat.succ n, st =>
      if st.t_next ≤ st.t_step then
        let st1 := nudgeDown st
        if pyRound1 st1.T_current ≤ st1.T_stop then st1
        else rampDownGo n st1
      else st

/-- Iteration bound for the up-ramp loop: each iteration raises `T_current`
by 0.1, and once `T_current > T_stop + 1/20` the rounded value is `≥ T_stop`
and the `break` fires, so `⌈(T_stop - T_current)*10⌉ + 1` iterations always
suffice (`rampUpGo_finished` below proves this fuel reaches the loop's
exit). -/
def upFuel (st : EngineState) : ℕ := (⌈(st.T_stop - st.T_current) * 10⌉).toNat + 1

/-- Iteration bound for the down-ramp loop. -/
def downFuel (st : EngineState) : ℕ := (⌈(st.T_current - st.T_stop) * 10⌉).toNat + 1

/-- The up-ramp `while` loop of `program_increment`. -/
def rampUpLoop (st : EngineState) : EngineState := rampUpGo (upFuel st) st

/-- The down-ramp `while` loop of `program_increment`. -/
def rampDownLoop (st : EngineState) : EngineState := rampDownGo (downFuel st) st

/-- `step_increment`: if `check_next()`, advance the program using the
device's current setpoint as the new ramp origin, zero `t_step`, refresh the
cached step parameters and update the progress display; otherwise stop the
run (un-click of the Run button) and mark the program completed.  An
exception inside `increment_step` (next step is a Ramp whose target equals
the current setpoint) leaves the engine fields unassigned but keeps the
program object's already-performed mutation. -/
def stepIncrement (st : EngineState) : EngineState :=
  if st.loaded_program.check_next then
    let pr := st.loaded_program.increment_step st.api.get_temperature_setpoint
    match pr.2 with
    | Except.ok r =>
        let st1 := { st with
          loaded_program := pr.1
          step_time := r.1
          t_next := r.2.1
          T_start := r.2.2.1
          T_stop := r.2.2.2
          t_step := 0
          step_duration := pr.1.get_step_duration * 3600
          step_operation := pr.1.get_step_operation }
        updateProgress st1 none
    | Except.error e => { st with loaded_program := pr.1, crashed := some e }
  else
    { st with running := false, completed := true }

/-- `program_increment(T)`: one engine step.  (The temperature argument `T`
is unused by the source body as well.)  Ramp: while below the target
(rounded to 0.1), run the catch-up nudge loop and refresh the displays;
once the rounded current setpoint reaches the target, advance to the next
step.  When `T_stop = T_start` neither ramp branch applies and the tick
does nothing (unreachable after a successful step entry).  Soak: hold until
`t_step` reaches `t_next`, then add the full step duration to `t_program`
and advance. -/
def program_increment (T : ℚ) (st : EngineState) : EngineState :=
  if st.step_operation = Op.Ramp then
    if st.T_start < st.T_stop then
      if pyRound1 st.T_current < st.T_stop then
        updateProgress (rampUpLoop st) none
      else stepIncrement st
    else if st.T_stop < st.T_start then
      if st.T_stop < pyRound1 st.T_current then
        updateProgress (rampDownLoop st) none
      else stepIncrement st
    else st
  else
    if st.t_step < st.t_next then
      updateProgress st (some (st.t_program + st.t_step))
    else
      stepIncrement
        { st with t_program := st.t_program + st.loaded_program.get_step_duration * 3600 }

/-- `_timer_tick`: if a program is running, advance `t_step` by the
wall-clock delta since the previous tick and run `program_increment` with
the temperature reading (both externalized as arguments). -/
def timer_tick (T dt : ℚ) (st : EngineState) : EngineState :=
  if st.running then program_increment T { st with t_step := st.t_step + dt }
  else st

/-- `_button_run_toggled` when checked, for a preset (non-"Custom") program:
the program was freshly reloaded at step index 0, `t_program`/`t_step` are
zeroed, the first step's duration and operation were cached by
`_combo_program_changed`, and `program.run(api.get_temperature())` produces
the ramp parameters, with `T_current` starting at `T_start` (the measured
temperature).  A `ZeroDivisionError` from `run` escapes the handler with the
ramp fields never assigned (kept at inert zeros here). -/
def startRun (p : program) (api0 : auber_syl53x2p_api) (limit T : ℚ) : EngineState :=
  let base : EngineState :=
    { loaded_program := p
      api := api0
      temperature_limit := limit
      step_time := 0
      t_next := 0
      T_start := 0
      T_stop := 0
      T_current := 0
      t_step := 0
      t_program := 0
      step_duration := p.get_step_duration * 3600
      step_operation := p.get_step_operation
      running := true
      completed := false
      disp_progress := none
      crashed := none }
  match p.run T with
  | Except.ok r =>
      { base with step_time := r.1, t_next := r.2.1, T_start := r.2.2.1,
                  T_stop := r.2.2.2, T_current := r.2.2.1 }
  | Except.error e => { base with crashed := some e }

/-- A nudge whose commanded value is within the limit: closed form of one
up-loop iteration. -/
theorem nudgeUp_eq (st : EngineState)
    (h : ¬ st.temperature_limit < st.T_current + 1/10) :
    nudgeUp st =
      { st with
          t_program := st.t_program + st.step_time
          t_next := st.t_next + st.step_time
          T_current := st.T_current + 1/10
          api := { temperature_limit := st.api.temperature_limit
                   simulation_setpoint := st.T_current + 1/10 } } := by
  rw [one_div] at h
  simp [nudgeUp, commandSetpoint, auber_syl53x2p_api.set_temperature_setpoint,
    auber_syl53x2p_api.get_temperature_setpoint, h]

/-- Closed form of one down-loop iteration within the limit. -/
theorem nudgeDown_eq (st : EngineState)
    (h : ¬ st.temperature_limit < st.T_current - 1/10) :
    nudgeDown st =
      { st with
          t_program := st.t_program + st.step_time
          t_next := st.t_next + st.step_time
          T_current := st.T_current - 1/10
          api := { temperature_limit := st.api.temperature_limit
                   simulation_setpoint := st.T_current - 1/10 } } := by
  rw [one_div] at h
  simp [nudgeDown, commandSetpoint, auber_syl53x2p_api.set_temperature_setpoint,
    auber_syl53x2p_api.get_temperature_setpoint, h]

/-- The up loop does nothing once the threshold is ahead of the clock. -/
theorem rampUpGo_stop (m : ℕ) (st : EngineState) (h : st.t_step < st.t_next) :
    rampUpGo m st = st := by
  cases m with
  | zero => rfl
  | succ n => simp [rampUpGo, not_le.mpr h]

/-- The down loop does nothing once the threshold is ahead of the clock. -/
theorem rampDownGo_stop (m : ℕ) (st : EngineState) (h : st.t_step < st.t_next) :
    rampDownGo m st = st := by
  cases m with
  | zero => rfl
  | succ n => simp [rampDownGo, not_le.mpr h]

/-- Exact behaviour of the up-ramp catch-up loop when the elapsed step time
has crossed `j+1` (but not `j+2`) nudge thresholds and the target is not
reached by the intermediate nudges: exactly `j+1` nudges are applied (one
per crossed interval, none skipped), the threshold advances by
`(j+1)*step_time`, and the setpoint is commanded to the final nudged value. -/
theorem rampUpGo_spec (j : ℕ) :
    ∀ (st : EngineState) (n : ℕ), j + 1 ≤ n →
      st.t_next + (j : ℚ) * st.step_time ≤ st.t_step →
      st.t_step < st.t_next + ((j : ℚ) + 1) * st.step_time →
      (∀ i : ℕ, i < j + 1 → 1 ≤ i → pyRound1 (st.T_current + (i : ℚ) / 10) < st.T_stop) →
      st.T_current + ((j : ℚ) + 1) / 10 ≤ st.temperature_limit →
      rampUpGo n st =
        { st with
            t_program := st.t_program + ((j : ℚ) + 1) * st.step_time
            t_next := st.t_next + ((j : ℚ) + 1) * st.step_time
            T_current := st.T_current + ((j : ℚ) + 1) / 10
            api := { temperature_limit := st.api.temperature_limit
                     simulation_setpoint := st.T_current + ((j : ℚ) + 1) / 10 } } := by
  induction j with
  | zero =>
      intro st n hn h1 h2 _hnb hlim
      obtain ⟨m, rfl⟩ : ∃ m, n = m + 1 := ⟨n - 1, by omega⟩
      push_cast at h1 h2 hlim ⊢
      have hcond : st.t_next ≤ st.t_step := by linarith
      have hwrite : ¬ st.temperature_limit < st.T_current + 1/10 := by
        push_neg
        linarith
      simp only [rampUpGo]
      rw [if_pos hcond, nudgeUp_eq st hwrite]
      dsimp only
      by_cases hbr : st.T_stop ≤ pyRound1 (st.T_current + 1/10)
      · rw [if_pos hbr]
        norm_num
      · rw [if_neg hbr]
        rw [rampUpGo_stop m _ (by dsimp only; linarith)]
        norm_num
  | succ j ih =>
      intro st n hn h1 h2 hnb hlim
      obtain ⟨m, rfl⟩ : ∃ m, n = m + 1 := ⟨n - 1, by omega⟩
      push_cast at h1 h2 hlim ⊢
      have hspos : 0 < st.step_time := by nlinarith
      have hjnn : (0 : ℚ) ≤ (j : ℚ) := Nat.cast_nonneg j
      have hjs : 0 ≤ (j : ℚ) * st.step_time := mul_nonneg hjnn hspos.le
      have hcond : st.t_next ≤ st.t_step := by linarith
      have hbr1 : pyRound1 (st.T_current + 1/10) < st.T_stop := by
        have h := hnb 1 (by omega) (by omega)
        push_cast at h
        simpa using h
      have hwrite : ¬ st.temperature_limit < st.T_current + 1/10 := by
        push_neg
        linarith
      simp only [rampUpGo]
      rw [if_pos hcond, nudgeUp_eq st hwrite]
      dsimp only
      rw [if_neg (not_le.mpr hbr1)]
      have h3 := ih
        { st with
            t_program := st.t_program + st.step_time
            t_next := st.t_next + st.step_time
            T_current := st.T_current + 1/10
            api := { temperature_limit := st.api.temperature_limit
                     simulation_setpoint := st.T_current + 1/10 } } m
        (by omega)
        (by dsimp only; linarith)
        (by dsimp only; linarith)
        (by
          intro i hi h1i
          dsimp only
          have h := hnb (i + 1) (by omega) (by omega)
          push_cast at h
          have heq : st.T_current + 1/10 + (i : ℚ)/10 = st.T_current + ((i : ℚ) + 1)/10 := by
            ring
          rw [heq]
          exact h)
        (by dsimp only; linarith)
      rw [h3]
      dsimp only
      congr 1 <;> push_cast <;> try ring

/-- Exact behaviour of the down-ramp catch-up loop: under the same threshold
crossing, exactly `j+1` downward nudges are applied. -/
theorem rampDownGo_spec (j : ℕ) :
    ∀ (st : EngineState) (n : ℕ), j + 1 ≤ n →
      st.t_next + (j : ℚ) * st.step_time ≤ st.t_step →
      st.t_step < st.t_next + ((j : ℚ) + 1) * st.step_time →
      (∀ i : ℕ, i < j + 1 → 1 ≤ i → st.T_stop < pyRound1 (st.T_current - (i : ℚ) / 10)) →
      st.T_current - 1 / 10 ≤ st.temperature_limit →
      rampDownGo n st =
        { st with
            t_program := st.t_program + ((j : ℚ) + 1) * st.step_time
            t_next := st.t_next + ((j : ℚ) + 1) * st.step_time
            T_current := st.T_current - ((j : ℚ) + 1) / 10
            api := { temperature_limit := st.api.temperature_limit
                     simulation_setpoint := st.T_current - ((j : ℚ) + 1) / 10 } } := by
  induction j with
  | zero =>
      intro st n hn h1 h2 _hnb hlim
      obtain ⟨m, rfl⟩ : ∃ m, n = m + 1 := ⟨n - 1, by omega⟩
      push_cast at h1 h2 hlim ⊢
      have hcond : st.t_next ≤ st.t_step := by linarith
      have hwrite : ¬ st.temperature_limit < st.T_current - 1/10 := by
        push_neg
        linarith
      simp only [rampDownGo]
      rw [if_pos hcond, nudgeDown_eq st hwrite]
      dsimp only
      by_cases hbr : pyRound1 (st.T_current - 1/10) ≤ st.T_stop
      · rw [if_pos hbr]
        norm_num
      · rw [if_neg hbr]
        rw [rampDownGo_stop m _ (by dsimp only; linarith)]
        norm_num
  | succ j ih =>
      intro st n hn h1 h2 hnb hlim
      obtain ⟨m, rfl⟩ : ∃ m, n = m + 1 := ⟨n - 1, by omega⟩
      push_cast at h1 h2 hlim ⊢
      have hspos : 0 < st.step_time := by nlinarith
      have hjnn : (0 : ℚ) ≤ (j : ℚ) := Nat.cast_nonneg j
      have hjs : 0 ≤ (j : ℚ) * st.step_time := mul_nonneg hjnn hspos.le
      have hcond : st.t_next ≤ st.t_step := by linarith
      have hbr1 : st.T_stop < pyRound1 (st.T_current - 1/10) := by
        have h := hnb 1 (by omega) (by omega)
        push_cast at h
        simpa using h
      have hwrite : ¬ st.temperature_limit < st.T_current - 1/10 := by
        push_neg
        linarith
      simp only [rampDownGo]
      rw [if_pos hcond, nudgeDown_eq st hwrite]
      dsimp only
      rw [if_neg (not_le.mpr hbr1)]
      have h3 := ih
        { st with
            t_program := st.t_program + st.step_time
            t_next := st.t_next + st.step_time
            T_current := st.T_current - 1/10
            api := { temperature_limit := st.api.temperature_limit
                     simulation_setpoint := st.T_current - 1/10 } } m
        (by omega)
        (by dsimp only; linarith)
        (by dsimp only; linarith)
        (by
          intro i hi h1i
          dsimp only
          have h := hnb (i + 1) (by omega) (by omega)
          push_cast at h
          have heq : st.T_current - 1/10 - (i : ℚ)/10 = st.T_current - ((i : ℚ) + 1)/10 := by
            ring
          rw [heq]
          exact h)
        (by dsimp only; linarith)
      rw [h3]
      dsimp only
      congr 1 <;> push_cast <;> try ring

/-- `round(x, 1)` is the identity on exact multiples of 0.1. -/
theorem pyRound1_tenths (n : ℤ) (x : ℚ) (hx : 10 * x = (n : ℚ)) : pyRound1 x = x := by
  unfold pyRound1 rhe
  rw [hx, Int.fract_intCast]
  rw [if_neg (by norm_num), round_intCast]
  linarith

/-- C2: on a tick of a Ramp step in progress whose elapsed step time
`t_step` lies between the `k`-th and `k+1`-st nudge thresholds
(`t_next + (k-1)*step_time ≤ t_step < t_next + k*step_time`) with the target
not reached by the intermediate nudges, `program_increment` applies exactly
`k` 0.1 °C nudges in the direction of the target — one per crossed interval,
none skipped, each advancing the running threshold by `step_time` — rather
than recomputing the threshold or skipping nudges.  (First conjunct: up
ramp; second: down ramp.) -/
theorem C2_ramp_catchup (st : EngineState) (k : ℕ) (T : ℚ) (hk : 1 ≤ k)
    (hop : st.step_operation = Op.Ramp)
    (h1 : st.t_next + ((k : ℚ) - 1) * st.step_time ≤ st.t_step)
    (h2 : st.t_step < st.t_next + (k : ℚ) * st.step_time) :
    (st.T_start < st.T_stop → pyRound1 st.T_current < st.T_stop →
      (∀ i : ℕ, i < k → 1 ≤ i → pyRound1 (st.T_current + (i : ℚ) / 10) < st.T_stop) →
      st.T_current + (k : ℚ) / 10 ≤ st.temperature_limit →
      program_increment T st = updateProgress
        { st with
            t_program := st.t_program + (k : ℚ) * st.step_time
            t_next := st.t_next + (k : ℚ) * st.step_time
            T_current := st.T_current + (k : ℚ) / 10
            api := { temperature_limit := st.api.temperature_limit
                     simulation_setpoint := st.T_current + (k : ℚ) / 10 } } none) ∧
    (st.T_stop < st.T_start → st.T_stop < pyRound1 st.T_current →
      (∀ i : ℕ, i < k → 1 ≤ i → st.T_stop < pyRound1 (st.T_current - (i : ℚ) / 10)) →
      st.T_current - 1 / 10 ≤ st.temperature_limit →
      program_increment T st = updateProgress
        { st with
            t_program := st.t_program + (k : ℚ) * st.step_time
            t_next := st.t_next + (k : ℚ) * st.step_time
            T_current := st.T_current - (k : ℚ) / 10
            api := { temperature_limit := st.api.temperature_limit
                     simulation_setpoint := st.T_current - (k : ℚ) / 10 } } none) := by
  obtain ⟨j, rfl⟩ : ∃ j, k = j + 1 := ⟨k - 1, by omega⟩
  constructor
  · intro hdir hcur hnb hlim
    have hfuel : j + 1 ≤ upFuel st := by
      rcases Nat.eq_zero_or_pos j with hj0 | hjpos
      · subst hj0
        unfold upFuel
        omega
      · have hb := hnb j (by omega) (by omega)
        have hge := pyRound1_ge (st.T_current + (j : ℚ) / 10)
        have hv : ((j : ℚ) - 1) < (st.T_stop - st.T_current) * 10 := by linarith
        have hceil : ((j : ℤ) - 1) < ⌈(st.T_stop - st.T_current) * 10⌉ := by
          have hle := Int.le_ceil ((st.T_stop - st.T_current) * 10)
          have hq : ((j : ℚ) - 1) < ((⌈(st.T_stop - st.T_current) * 10⌉ : ℤ) : ℚ) :=
            lt_of_lt_of_le hv hle
          exact_mod_cast hq
        unfold upFuel
        omega
    have hl := rampUpGo_spec j st (upFuel st) hfuel
      (by push_cast at h1 ⊢; linarith)
      (by push_cast at h2 ⊢; linarith)
      (by exact hnb)
      (by push_cast at hlim ⊢; linarith)
    unfold program_increment
    rw [if_pos hop, if_pos hdir, if_pos hcur]
    unfold rampUpLoop
    rw [hl]
    push_cast
    rfl
  · intro hdir hcur hnb hlim
    have hfuel : j + 1 ≤ downFuel st := by
      rcases Nat.eq_zero_or_pos j with hj0 | hjpos
      · subst hj0
        unfold downFuel
        omega
      · have hb := hnb j (by omega) (by omega)
        have hge := pyRound1_le (st.T_current - (j : ℚ) / 10)
        have hv : ((j : ℚ) - 1) < (st.T_current - st.T_stop) * 10 := by linarith
        have hceil : ((j : ℤ) - 1) < ⌈(st.T_current - st.T_stop) * 10⌉ := by
          have hle := Int.le_ceil ((st.T_current - st.T_stop) * 10)
          have hq : ((j : ℚ) - 1) < ((⌈(st.T_current - st.T_stop) * 10⌉ : ℤ) : ℚ) :=
            lt_of_lt_of_le hv hle
          exact_mod_cast hq
        unfold downFuel
        omega
    have hl := rampDownGo_spec j st (downFuel st) hfuel
      (by push_cast at h1 ⊢; linarith)
      (by push_cast at h2 ⊢; linarith)
      (by exact hnb)
      hlim
    unfold program_increment
    rw [if_pos hop, if_neg (not_lt.mpr hdir.le), if_pos hdir, if_pos hcur]
    unfold rampDownLoop
    rw [hl]
    push_cast
    rfl

/-- A mid-ramp engine state for the C2 witness: ramping 20 → 100 °C over
1 h (`step_time = 4.5`), two nudges already applied (`T_current = 20.2`,
`t_next = 13.5`), and a delayed tick has brought `t_step` to 22.6 s,
spanning the thresholds 13.5, 18 and 22.5. -/
def stC2 : EngineState :=
  { loaded_program := progRampA
    api := { temperature_limit := 500, simulation_setpoint := 101/5 }
    temperature_limit := 500
    step_time := 9/2
    t_next := 27/2
    T_start := 20
    T_stop := 100
    T_current := 101/5
    t_step := 113/5
    t_program := 9
    step_duration := 3600
    step_operation := Op.Ramp
    running := true
    completed := false
    disp_progress := some (1/4)
    crashed := none }

/-- Witness for C2: the delayed tick above spans 3 nudge intervals and
applies exactly 3 nudges: `T_current` goes from 20.2 to 20.5, the setpoint
is commanded to 20.5, and the threshold advances by `3 * 4.5` to 27. -/
theorem C2_ramp_catchup_witness :
    (program_increment 24 stC2).T_current = 41/2 ∧
    (program_increment 24 stC2).t_next = 27 ∧
    (program_increment 24 stC2).t_program = 45/2 ∧
    (program_increment 24 stC2).api.simulation_setpoint = 41/2 := by
  have h := (C2_ramp_catchup stC2 3 24 (by omega) rfl
      (by norm_num [stC2]) (by norm_num [stC2])).1
    (by norm_num [stC2])
    (by
      rw [show stC2.T_current = 101/5 from rfl, pyRound1_tenths 202 _ (by norm_num)]
      norm_num [stC2])
    (by
      intro i hi h1i
      interval_cases i
      · rw [show stC2.T_current + ((1 : ℕ) : ℚ)/10 = 203/10 by norm_num [stC2],
          pyRound1_tenths 203 _ (by norm_num)]
        norm_num [stC2]
      · rw [show stC2.T_current + ((2 : ℕ) : ℚ)/10 = 102/5 by norm_num [stC2],
          pyRound1_tenths 204 _ (by norm_num)]
        norm_num [stC2])
    (by norm_num [stC2])
  rw [h]
  norm_num [updateProgress, stC2]

/-- Closed form of `increment_step` when the next step exists, is a Ramp and
its target differs from the supplied setpoint. -/
theorem increment_step_eq_ramp (p : program) (c : ℚ) (s : Step)
    (hs : p.steps[p.loaded_step_index + 1]? = some s) (hop : s.op = Op.Ramp)
    (hne : s.temperature ≠ c) :
    p.increment_step c =
      ({ p with loaded_step := s, loaded_step_index := p.loaded_step_index + 1 },
       Except.ok (s.duration * 3600 / (|s.temperature - c| * 10),
                  s.duration * 3600 / (|s.temperature - c| * 10), c, s.temperature)) := by
  have hz : ¬(|s.temperature - c| * 10 = 0) := by
    simp [sub_eq_zero, hne]
  unfold program.increment_step
  rw [hs]
  rcases s with ⟨op, temp, dur⟩
  obtain rfl : op = Op.Ramp := hop
  dsimp only
  rw [if_neg hz]

/-- C3: at a step transition into a Ramp step, `step_increment` initializes
the new ramp from the setpoint currently on the device
(`api.get_temperature_setpoint()`), not from the previous step's nominal
target: the new `T_start` is the device setpoint and `step_time` is computed
from `|target - device setpoint|`, so successive ramps chain from wherever
the previous step actually left the setpoint. -/
theorem C3_ramp_chaining (st : EngineState) (s : Step)
    (hnext : st.loaded_program.check_next = true)
    (hs : st.loaded_program.steps[st.loaded_program.loaded_step_index + 1]? = some s)
    (hop : s.op = Op.Ramp)
    (hne : s.temperature ≠ st.api.get_temperature_setpoint) :
    stepIncrement st =
      updateProgress
        { st with
            loaded_program :=
              { st.loaded_program with
                  loaded_step := s
                  loaded_step_index := st.loaded_program.loaded_step_index + 1 }
            step_time := s.duration * 3600
              / (|s.temperature - st.api.get_temperature_setpoint| * 10)
            t_next := s.duration * 3600
              / (|s.temperature - st.api.get_temperature_setpoint| * 10)
            T_start := st.api.get_temperature_setpoint
            T_stop := s.temperature
            t_step := 0
            step_duration := s.duration * 3600
            step_operation := Op.Ramp } none := by
  unfold stepIncrement
  rw [if_pos hnext]
  rw [increment_step_eq_ramp st.loaded_program st.api.get_temperature_setpoint s hs hop hne]
  dsimp only [program.get_step_duration, program.get_step_operation]
  rw [hop]

/-- The Soak(25 °C, 1 h) → Ramp(50 °C, 2 h) program of the C3 witness. -/
def progTwoW : program :=
  { name := "C"
    steps := [{ op := Op.Soak, temperature := 25, duration := 1 },
              { op := Op.Ramp, temperature := 50, duration := 2 }]
    loaded_step := { op := Op.Soak, temperature := 25, duration := 1 }
    loaded_step_index := 0
    size := 2
    length := 10800 }

/-- Engine state at the end of the Soak step of `progTwoW`, with the device
setpoint last commanded to 30 °C (not the Soak step's nominal 25 °C). -/
def stW3 : EngineState :=
  { loaded_program := progTwoW
    api := { temperature_limit := 500, simulation_setpoint := 30 }
    temperature_limit := 500
    step_time := 0
    t_next := 3600
    T_start := 20
    T_stop := 25
    T_current := 20
    t_step := 3700
    t_program := 3600
    step_duration := 3600
    step_operation := Op.Soak
    running := true
    completed := false
    disp_progress := none
    crashed := none }

/-- Witness for C3: entering the Ramp-to-50 °C step with the device setpoint
at 30 °C yields `T_start = 30`, `dT = 20` and
`step_time = 7200/200 = 36 s` — chained from 30, not from the Soak's 25. -/
theorem C3_ramp_chaining_witness :
    (stepIncrement stW3).T_start = 30 ∧
    (stepIncrement stW3).T_stop = 50 ∧
    (stepIncrement stW3).step_time = 36 ∧
    (stepIncrement stW3).t_next = 36 ∧
    (stepIncrement stW3).loaded_program.loaded_step_index = 1 := by
  have h := C3_ramp_chaining stW3 { op := Op.Ramp, temperature := 50, duration := 2 }
    rfl rfl rfl
    (by norm_num [stW3, auber_syl53x2p_api.get_temperature_setpoint])
  rw [h]
  norm_num [updateProgress, stW3, auber_syl53x2p_api.get_temperature_setpoint, progTwoW]

/-- C5 (amended): for a Soak step, `program_increment` never commands the
setpoint at all — neither at entry nor during the hold; the device setpoint
simply retains whatever value it had.  While `t_step < t_next` the tick only
refreshes the displays (first conjunct: the full engine state is unchanged
except the progress display); on the first tick with `t_step ≥ t_next`
(where `t_next` was set to `duration*3600` at step entry) it adds the full
step duration to `t_program` and advances via `step_increment`. -/
theorem C5_soak (st : EngineState) (T : ℚ) (hop : st.step_operation = Op.Soak) :
    (st.t_step < st.t_next →
      program_increment T st = updateProgress st (some (st.t_program + st.t_step))) ∧
    (st.t_next ≤ st.t_step →
      program_increment T st =
        stepIncrement
          { st with
              t_program := st.t_program + st.loaded_program.get_step_duration * 3600 }) := by
  have hne : ¬ st.step_operation = Op.Ramp := by
    simp [hop]
  constructor
  · intro hlt
    unfold program_increment
    rw [if_neg hne, if_pos hlt]
  · intro hle
    unfold program_increment
    rw [if_neg hne, if_neg (not_lt.mpr hle)]

/-- The one-step program `[("Soak", 50, 0.5)]` of the spec's Scenario B. -/
def progSoakB : program :=
  { name := "B"
    steps := [{ op := Op.Soak, temperature := 50, duration := 1/2 }]
    loaded_step := { op := Op.Soak, temperature := 50, duration := 1/2 }
    loaded_step_index := 0
    size := 1
    length := 1800 }

/-- The api state at run start in the C5 scenario (setpoint 24.5). -/
def apiB : auber_syl53x2p_api :=
  { temperature_limit := 500, simulation_setpoint := 49/2 }

/-- The engine state produced by starting a run of `progSoakB` at a
measured temperature of 20 °C. -/
def stB0 : EngineState :=
  { loaded_program := progSoakB
    api := apiB
    temperature_limit := 500
    step_time := 0
    t_next := 1800
    T_start := 20
    T_stop := 50
    T_current := 20
    t_step := 0
    t_program := 0
    step_duration := 1800
    step_operation := Op.Soak
    running := true
    completed := false
    disp_progress := none
    crashed := none }

/-- C5 counterexample: starting Scenario B (`[("Soak", 50, 0.5)]`, device
setpoint 24.5 °C) never commands the setpoint to 50 °C: directly after run
start, and still after a tick, the device setpoint is 24.5 ≠ 50.  The claim
that the setpoint is "commanded once to the step's target temperature" on
step entry is false — no code path writes a Soak target to the device. -/
theorem C5_counterexample :
    (startRun progSoakB apiB 500 20).api.get_temperature_setpoint = 49/2 ∧
    (timer_tick 24 1 (startRun progSoakB apiB 500 20)).api.get_temperature_setpoint
      = 49/2 ∧
    (49/2 : ℚ) ≠ 50 := by
  have hrun : progSoakB.run 20 = Except.ok (0, 1800, 20, 50) := by
    have hop : ¬ (progSoakB.get_step_operation = Op.Ramp) := by
      simp [progSoakB, program.get_step_operation]
    unfold program.run
    rw [if_neg hop]
    norm_num [progSoakB, program.get_step_duration, program.get_step_temperature]
  have hstart : startRun progSoakB apiB 500 20 = stB0 := by
    unfold startRun
    rw [hrun]
    norm_num [stB0, progSoakB, apiB, program.get_step_duration, program.get_step_operation]
  refine ⟨?_, ?_, by norm_num⟩
  · rw [hstart]
    rfl
  · rw [hstart]
    show (program_increment 24
        { stB0 with t_step := stB0.t_step + 1 }).api.get_temperature_setpoint = 49/2
    have hcond1 : ¬ ({ stB0 with t_step := stB0.t_step + 1 }.step_operation = Op.Ramp) := by
      simp [stB0]
    have hcond2 : { stB0 with t_step := stB0.t_step + 1 }.t_step
        < { stB0 with t_step := stB0.t_step + 1 }.t_next := by
      norm_num [stB0]
    unfold program_increment
    rw [if_neg hcond1, if_pos hcond2]
    rfl

/-- Witness for C5: a tick 7 s into the Soak hold leaves the device setpoint
and `T_current` untouched and only refreshes the progress display with
`t_program + t_step = 7` seconds. -/
theorem C5_soak_witness :
    program_increment 24 { stB0 with t_step := 7 }
      = updateProgress { stB0 with t_step := 7 } (some 7) ∧
    (program_increment 24 { stB0 with t_step := 7 }).api.simulation_setpoint = 49/2 := by
  have h := (C5_soak { stB0 with t_step := 7 } 24 rfl).1 (by norm_num [stB0])
  constructor
  · rw [h]
    norm_num [updateProgress, stB0]
  · rw [h]
    rfl

/-- The one-step program `[("Ramp", 20.25, 1.0)]`: a ramp whose `ΔT × 10`
is fractional when started from 20 °C. -/
def progRampF : program :=
  { name := "F"
    steps := [{ op := Op.Ramp, temperature := 81/4, duration := 1 }]
    loaded_step := { op := Op.Ramp, temperature := 81/4, duration := 1 }
    loaded_step_index := 0
    size := 1
    length := 3600 }

/-- The engine state after starting a run of `progRampF` at 20 °C. -/
def stF0 : EngineState :=
  { loaded_program := progRampF
    api := apiB
    temperature_limit := 500
    step_time := 1440
    t_next := 1440
    T_start := 20
    T_stop := 81/4
    T_current := 20
    t_step := 0
    t_program := 0
    step_duration := 3600
    step_operation := Op.Ramp
    running := true
    completed := false
    disp_progress := none
    crashed := none }

/-- `stF0` after the delayed tick has advanced `t_step` to 5000 s. -/
def stF1 : EngineState := { stF0 with t_step := 5000 }

/-- C7 counterexample: the reported progress percentage is not clamped to
[0, 100] and does not equal cumulative elapsed time over total duration.
Starting `[("Ramp", 20.25, 1.0)]` at 20 °C gives `step_time = 1440`; a tick
at `t_step = 5000` crosses three thresholds, the third nudge reaches the
target (round(20.3) ≥ 20.25), and `t_program` becomes `3*1440 = 4320`, so
the display shows `100*4320/3600 = 120 %` — a fraction of 1.2 > 1 (the
claimed clamped value would be 1, and elapsed/total would be 5000/3600). -/
theorem C7_counterexample :
    (timer_tick 24 5000 (startRun progRampF apiB 500 20)).disp_progress = some 120 ∧
    ¬ (120 : ℚ) ≤ 100 := by
  have hopR : progRampF.get_step_operation = Op.Ramp := rfl
  have hz : ¬ (|progRampF.get_step_temperature - 20| * 10 = 0) := by
    norm_num [progRampF, program.get_step_temperature]
  have hrun : progRampF.run 20 = Except.ok (1440, 1440, 20, 81/4) := by
    unfold program.run
    rw [if_pos hopR, if_neg hz]
    rw [show |progRampF.get_step_temperature - 20| = 1/4 by
      norm_num [progRampF, program.get_step_temperature]]
    norm_num [progRampF, program.get_step_duration, program.get_step_temperature]
  have hstart : startRun progRampF apiB 500 20 = stF0 := by
    unfold startRun
    rw [hrun]
    norm_num [stF0, progRampF, apiB, program.get_step_duration, program.get_step_operation]
  rw [hstart]
  refine ⟨?_, by norm_num⟩
  show (program_increment 24 { stF0 with t_step := stF0.t_step + 5000 }).disp_progress
    = some 120
  rw [show ({ stF0 with t_step := stF0.t_step + 5000 } : EngineState) = stF1 by
    norm_num [stF1, stF0]]
  have hfe : upFuel stF1 = 4 := by
    unfold upFuel
    norm_num [stF1, stF0]
    rw [show ⌈(5/2 : ℚ)⌉ = 3 by rw [Int.ceil_eq_iff] <;> norm_num]
    rfl
  have hl := rampUpGo_spec 2 stF1 (upFuel stF1)
    (by rw [hfe]; norm_num)
    (by norm_num [stF1, stF0])
    (by norm_num [stF1, stF0])
    (by
      intro i hi h1i
      interval_cases i
      · norm_num [stF1, stF0]
        rw [pyRound1_tenths 201 (201/10) (by norm_num)]
        norm_num
      · norm_num [stF1, stF0]
        rw [pyRound1_tenths 202 (101/5) (by norm_num)]
        norm_num)
    (by norm_num [stF1, stF0])
  unfold program_increment
  rw [if_pos (show (stF1.step_operation = Op.Ramp) from rfl)]
  rw [if_pos (show stF1.T_start < stF1.T_stop from by norm_num [stF1, stF0])]
  rw [if_pos (show pyRound1 stF1.T_current < stF1.T_stop from by
    rw [show (stF1.T_current : ℚ) = 20 from rfl]
    rw [pyRound1_tenths 200 20 (by norm_num)]
    norm_num [stF1, stF0])]
  unfold rampUpLoop
  rw [hl]
  norm_num [updateProgress, stF1, stF0, progRampF, program.get_length]

/-- C7 (amended): the reported progress percentage is
`100 * t_program / get_length()`, where `t_program` is a nudge-count
accumulator, not wall-clock elapsed time: during a Soak hold the display
transiently shows `100*(t_program + t_step)/length`, the Ramp display after
a tick is `100*t_program/length`, and program completion sets
`running := false`/`completed := true` without touching the progress
display (no final update to exactly 100 %).  The value is not clamped and
can exceed 100 % (see the counterexample). -/
theorem C7_progress (st : EngineState) (T : ℚ) :
    (st.step_operation = Op.Soak → st.t_step < st.t_next →
      (program_increment T st).disp_progress
        = some (100 * (st.t_program + st.t_step) / st.loaded_program.get_length)) ∧
    (st.loaded_program.check_next = false →
      stepIncrement st = { st with running := false, completed := true }) ∧
    ((updateProgress st (none : Option ℚ)).disp_progress
      = some (100 * st.t_program / st.loaded_program.get_length)) := by
  refine ⟨?_, ?_, rfl⟩
  · intro hop hlt
    have hne : ¬ st.step_operation = Op.Ramp := by
      simp [hop]
    unfold program_increment
    rw [if_neg hne, if_pos hlt]
    rfl
  · intro h
    unfold stepIncrement
    rw [h]
    simp

/-- Witness for the amended C7: 7 s into the Soak hold of Scenario B the
display shows `100*7/1800 = 7/18` percent, and completing the one-step
program flips `running`/`completed` without touching the display. -/
theorem C7_progress_witness :
    (program_increment 24 { stB0 with t_step := 7 }).disp_progress = some (7/18) ∧
    stepIncrement stB0 = { stB0 with running := false, completed := true } := by
  constructor
  · rw [(C7_progress { stB0 with t_step := 7 } 24).1 rfl (by norm_num [stB0])]
    norm_num [stB0, progSoakB, program.get_length]
  · exact (C7_progress stB0 24).2.1 rfl

end Auber
